import Mathlib

/-!
Shallow embedding of the battle core of `src/main.js` (a single-encounter
boss-fight simulator) and proofs about it.

Modelling conventions:
* JavaScript numbers are modelled as rationals (`ℚ`); the spec describes
  hp and corruption as real numbers and every constant in the source is a
  finite decimal, so all claimed values are exact in `ℚ`.
* The module-global mutable state (`game`, `player`, `bones`, `blasters`,
  `stallTimer`, `napMode`, the dialogue element) is gathered into one
  `State` record; `update` and `onMenuAction` are state transformers.
* The held-keys set is passed to `update` as a `Keys` snapshot, matching
  the per-tick sampling of the source.
* A blaster stores the direction cosines `dirX = cos angle`,
  `dirY = sin angle` of its facing angle: the source reads the angle only
  through `Math.cos`/`Math.sin` in the beam collision test, so this is the
  same data in rational form.
* `setTimeout`-deferred pattern effects fire between `update` calls in the
  source; the embedded pattern functions perform the immediate effects of
  each pattern (the deferred ones are external events that no claim
  touches).  The sine offsets of `patternPendulum` are decimal renderings
  of the `Math.sin(0..4)` doubles; no claim depends on them.
-/

/-- Color tag of a bone: `white` is the Neutral bone, `blue` the Guarded
("do not move") bone, exactly the `'white'`/`'blue'` strings of the source. -/
inductive BoneColor where
  | white
  | blue
deriving DecidableEq

/-- Soul color selecting the movement mode: `red` is free roam, `blue` is
gravity platforming (source field `game.soulColor`). -/
inductive SoulColor where
  | red
  | blue
deriving DecidableEq

/-- Discrete menu action, the `data-action` strings of the source buttons. -/
inductive MenuAction where
  | fight
  | act
  | item
  | mercy
deriving DecidableEq

/-- Snapshot of the held-keys set, restricted to the keys the engine reads. -/
structure Keys where
  arrowleft : Bool
  arrowright : Bool
  arrowup : Bool
  arrowdown : Bool
  a : Bool
  d : Bool
  w : Bool
  s : Bool
  space : Bool
deriving DecidableEq

/-- Bone obstacle: `{x, y, w, h, color, vx, vy}` of the source. -/
structure Bone where
  x : ℚ
  y : ℚ
  w : ℚ
  h : ℚ
  color : BoneColor
  vx : ℚ
  vy : ℚ
deriving DecidableEq

/-- Blaster beam emitter: `{x, y, angle, charge, fire, life}` of the source,
with the facing angle represented by its direction cosines (see module
comment).  `charge` and `fire` are spawned but never read by the engine. -/
structure Blaster where
  x : ℚ
  y : ℚ
  dirX : ℚ
  dirY : ℚ
  charge : ℚ
  fire : ℚ
  life : ℤ
deriving DecidableEq

/-- Whole mutable state of the battle core: the `game` and `player` objects,
the entity arrays, the stall globals and the dialogue line. -/
structure State where
  width : ℚ
  height : ℚ
  frame : ℕ
  running : Bool
  phaseIndex : ℕ
  subphaseTime : ℚ
  gravity : ℚ
  soulColor : SoulColor
  inMenu : Bool
  specialStall : Bool
  finished : Bool
  introActive : Bool
  px : ℚ
  py : ℚ
  pvx : ℚ
  pvy : ℚ
  pwidth : ℚ
  pheight : ℚ
  speed : ℚ
  jump : ℚ
  onGround : Bool
  moveThisFrame : Bool
  hp : ℚ
  hpMax : ℚ
  kr : ℚ
  bones : List Bone
  blasters : List Blaster
  stallTimer : ℚ
  napMode : Bool
  dialogue : String

/-- Axis-aligned rectangle overlap test, source function `rectsOverlap`. -/
def rectsOverlap (ax ay aw ah bx bY bw bh : ℚ) : Prop :=
  ax < bx + bw ∧ ax + aw > bx ∧ ay < bY + bh ∧ ay + ah > bY

instance (ax ay aw ah bx bY bw bh : ℚ) :
    Decidable (rectsOverlap ax ay aw ah bx bY bw bh) := by
  unfold rectsOverlap; infer_instance

/-- Sign function of `Math.sign` on rationals. -/
def signQ (x : ℚ) : ℚ := if 0 < x then 1 else if x < 0 then -1 else 0

/-- Left input, `keys.has('arrowleft') || keys.has('a')`. -/
def leftHeld (k : Keys) : Bool := k.arrowleft || k.a

/-- Right input, `keys.has('arrowright') || keys.has('d')`. -/
def rightHeld (k : Keys) : Bool := k.arrowright || k.d

/-- Up input, `keys.has('arrowup') || keys.has('w') || keys.has(' ')`. -/
def upHeld (k : Keys) : Bool := k.arrowup || k.w || k.space

/-- Down input as read inline in the red-soul branch,
`keys.has('arrowdown') || keys.has('s')`. -/
def downHeld (k : Keys) : Bool := k.arrowdown || k.s

/-- Source function `hurt(amount, addKR)`: subtract hp, add corruption
clamped to 60, and stop the game with the death line when hp drops to 0
or below. -/
def hurt (amount addKR : ℚ) (st : State) : State :=
  let st := { st with hp := st.hp - amount, kr := min 60 (st.kr + addKR) }
  if st.hp ≤ 0 then
    { st with running := false, dialogue := "you died. refresh to retry." }
  else st

/-- Source function `applyKR(delta)`: when corruption is positive, drain
hp by `min(kr, 0.08 * delta)` and decay kr by `0.02 * delta` clamped at 0. -/
def applyKR (delta : ℚ) (st : State) : State :=
  if st.kr ≤ 0 then st
  else
    let drain := min st.kr (0.08 * delta)
    { st with hp := st.hp - drain, kr := max 0 (st.kr - 0.02 * delta) }

/-- Menu timing block of `update`: after 1800 ms in a pattern (outside the
stall) the menu reopens. -/
def menuTiming (st : State) : State :=
  if st.inMenu = false ∧ st.subphaseTime > 1800 ∧ st.specialStall = false then
    { st with inMenu := true }
  else st

/-- Red-soul free movement: each held direction translates the soul and
marks it as moved. -/
def physicsRed (k : Keys) (st : State) : State :=
  let st := if leftHeld k then
      { st with px := st.px - st.speed, moveThisFrame := true } else st
  let st := if rightHeld k then
      { st with px := st.px + st.speed, moveThisFrame := true } else st
  let st := if upHeld k then
      { st with py := st.py - st.speed, moveThisFrame := true } else st
  if downHeld k then
    { st with py := st.py + st.speed, moveThisFrame := true } else st

/-- Input half of blue-soul platforming: left/right set horizontal
velocity (left wins), a held up key jumps only while grounded. -/
def blueInput (k : Keys) (st : State) : State :=
  let st :=
    if leftHeld k then { st with pvx := -st.speed, moveThisFrame := true }
    else if rightHeld k then { st with pvx := st.speed, moveThisFrame := true }
    else { st with pvx := 0 }
  if upHeld k && st.onGround then
    { st with pvy := -st.jump * signQ st.gravity, onGround := false,
              moveThisFrame := true }
  else st

/-- Integration half of blue-soul platforming: gravity accumulates,
position integrates velocity, and the floor/ceiling (chosen by the gravity
sign) clamps and re-grounds the soul. -/
def blueIntegrate (st : State) : State :=
  let st := { st with pvy := st.pvy + st.gravity * 0.4 }
  let st := { st with px := st.px + st.pvx, py := st.py + st.pvy }
  let floorY : ℚ := if st.gravity > 0 then 460 else 20
  if (st.gravity > 0 ∧ st.py + st.pheight ≥ floorY) ∨
      (st.gravity < 0 ∧ st.py ≤ floorY) then
    { st with py := if st.gravity > 0 then floorY - st.pheight else floorY,
              pvy := 0, onGround := true }
  else { st with onGround := false }

/-- Blue-soul platforming, input then integration, in source order. -/
def physicsBlue (k : Keys) (st : State) : State :=
  blueIntegrate (blueInput k st)

/-- Player input and physics block of `update`: reset `moveThisFrame`, then
run the movement model selected by the soul color. -/
def physics (k : Keys) (st : State) : State :=
  let st := { st with moveThisFrame := false }
  match st.soulColor with
  | SoulColor.red => physicsRed k st
  | SoulColor.blue => physicsBlue k st

/-- Post-physics clamp keeping the soul 20 units inside the stage. -/
def clampToStage (st : State) : State :=
  { st with px := max 20 (min (st.width - 20 - st.pwidth) st.px),
            py := max 20 (min (st.height - 20 - st.pheight) st.py) }

/-- Bone advance block: every bone moves by its velocity once. -/
def advanceBones (st : State) : State :=
  { st with bones := st.bones.map fun b => { b with x := b.x + b.vx, y := b.y + b.vy } }

/-- Bone culling block: drop bones strictly outside the 200-unit margin. -/
def cullBones (st : State) : State :=
  { st with bones := st.bones.filter fun b =>
      decide (¬(b.x + b.w < -200 ∨ b.x > st.width + 200 ∨
                b.y > st.height + 200 ∨ b.y + b.h < -200)) }

/-- Blaster advance block: every blaster loses one tick of lifetime. -/
def advanceBlasters (st : State) : State :=
  { st with blasters := st.blasters.map fun g => { g with life := g.life - 1 } }

/-- Blaster culling block: drop blasters whose lifetime reached 0. -/
def cullBlasters (st : State) : State :=
  { st with blasters := st.blasters.filter fun g => decide (¬(g.life ≤ 0)) }

/-- Damage of one bone against the soul: Neutral (white) bones hurt on any
overlap, Guarded (blue) bones hurt only when the soul moved this tick. -/
def boneCollide (b : Bone) (st : State) : State :=
  if rectsOverlap st.px st.py st.pwidth st.pheight b.x b.y b.w b.h then
    match b.color with
    | BoneColor.white => hurt 1.2 5 st
    | BoneColor.blue => if st.moveThisFrame then hurt 1.2 5 st else st
  else st

/-- Bone collision block of `update`: every bone is tested once, in array
order. -/
def boneCollisions (st : State) : State :=
  st.bones.foldl (fun s b => boneCollide b s) st

/-- Forward projection of the soul center onto a blaster ray,
`proj = ox*dx + oy*dy` of the source. -/
def beamProj (st : State) (g : Blaster) : ℚ :=
  ((st.px + st.pwidth / 2) - g.x) * g.dirX + ((st.py + st.pheight / 2) - g.y) * g.dirY

/-- Perpendicular distance of the soul center from a blaster ray,
`perp = |-oy*dx + ox*dy|` of the source. -/
def beamPerp (st : State) (g : Blaster) : ℚ :=
  |(-((st.py + st.pheight / 2) - g.y)) * g.dirX + ((st.px + st.pwidth / 2) - g.x) * g.dirY|

/-- Damage of one blaster against the soul: the beam is active for
`life < 40`, and hits when the forward projection is strictly between 0 and
the beam length 800 and the perpendicular distance is strictly under 22. -/
def blasterCollide (g : Blaster) (st : State) : State :=
  if g.life < 40 then
    if 0 < beamProj st g ∧ beamProj st g < 800 ∧ beamPerp st g < 22 then
      hurt 0.9 6 st
    else st
  else st

/-- Blaster collision block of `update`: every blaster is tested once. -/
def blasterCollisions (st : State) : State :=
  st.blasters.foldl (fun s g => blasterCollide g s) st

/-- Blue cage-top bone spawned by the stall guard-drop branch. -/
def cageTopBlue : Bone :=
  { x := 220, y := 220, w := 200, h := 10, color := BoneColor.blue, vx := 0, vy := 0 }

/-- Source function `tryAllowStallEscape(delta)`: accumulate or reset the
idle timer, enter nap mode past 3000 ms, and past 6000 ms spawn the blue
cage-top bone (this branch runs on every qualifying tick). -/
def tryAllowStallEscape (k : Keys) (delta : ℚ) (st : State) : State :=
  if st.specialStall = false then st
  else
    let moving := k.arrowleft || k.arrowright || k.arrowup || k.arrowdown ||
                  k.a || k.d || k.w || k.s
    let st := if moving = false then { st with stallTimer := st.stallTimer + delta }
              else { st with stallTimer := 0 }
    let st := if st.napMode = false ∧ st.stallTimer > 3000 then
        { st with napMode := true, dialogue := "... zzz" }
      else st
    if st.napMode = true ∧ st.stallTimer > 6000 then
      { st with bones := st.bones ++ [cageTopBlue],
                dialogue := "you feel the guard drop." }
    else st

/-- Final block of `update`: once the nap has lasted past 8000 ms the menu
reopens to offer the finishing strike. -/
def stallFinisherCheck (st : State) : State :=
  if st.specialStall = true ∧ st.napMode = true ∧ st.stallTimer > 8000 ∧
      st.inMenu = false ∧ st.finished = false then
    { st with inMenu := true, dialogue := "... now\x27s your chance." }
  else st

/-- Body of `update` after the running/intro early returns, in source
order: menu timing, physics, stage clamp, bone advance and cull, blaster
advance and cull, bone collisions, beam collisions, corruption drain,
stall idle detection, stall finisher check. -/
def tick (k : Keys) (delta : ℚ) (st : State) : State :=
  stallFinisherCheck
    (tryAllowStallEscape k delta
      (applyKR delta
        (blasterCollisions
          (boneCollisions
            (cullBlasters
              (advanceBlasters
                (cullBones
                  (advanceBones
                    (clampToStage
                      (physics k
                        (menuTiming st)))))))))))

/-- Source function `update(deltaMs)`: a no-op once the game stopped;
otherwise the frame counter and subphase timer advance, and during the
intro nothing else runs. -/
def update (k : Keys) (delta : ℚ) (st : State) : State :=
  if st.running = false then st
  else
    let st1 := { st with frame := st.frame + 1, subphaseTime := st.subphaseTime + delta }
    if st1.introActive = true then st1 else tick k delta st1

/-- The four white cage bones of `specialAttackStallSetup`, in spawn order. -/
def stallCage : List Bone :=
  [ { x := 220, y := 220, w := 200, h := 10, color := BoneColor.white, vx := 0, vy := 0 },
    { x := 220, y := 350, w := 200, h := 10, color := BoneColor.white, vx := 0, vy := 0 },
    { x := 220, y := 220, w := 10, h := 140, color := BoneColor.white, vx := 0, vy := 0 },
    { x := 410, y := 220, w := 10, h := 140, color := BoneColor.white, vx := 0, vy := 0 } ]

/-- Source function `specialAttackStallSetup`: set the stall line and build
the cage. -/
def specialAttackStallSetup (st : State) : State :=
  { st with dialogue := "my special attack.", bones := st.bones ++ stallCage }

/-- Decimal renderings of the `Math.sin(0)` … `Math.sin(4)` doubles used
only by `patternPendulum`; no claim depends on these values. -/
def sinVals : List ℚ := [0, 0.8414709848, 0.9092974268, 0.1411200081, -0.7568024953]

/-- Immediate effects of `patternSweepAndBlaster`: the dialogue line plus
the paired horizontal sweeps for `y = 360, 330, 300, 270, 240` (the
`y = 300` sweep is blue); the blaster spawn is deferred. -/
def patternSweepAndBlaster (st : State) : State :=
  { st with
      dialogue := "keep your feet still when they\x27re blue.",
      bones := st.bones ++ ((List.range 5).map fun i =>
      let y : ℚ := 360 - 30 * i
      [ { x := -100, y := y, w := 200, h := 8,
          color := if y = 300 then BoneColor.blue else BoneColor.white,
          vx := 4, vy := 0 },
        { x := 640, y := y + 15, w := 200, h := 8, color := BoneColor.white,
          vx := -4, vy := 0 } ]).flatten }

/-- Immediate effects of `patternStairsAndSwipe`: the six stair bones; the
swipes and blasters are deferred. -/
def patternStairsAndSwipe (st : State) : State :=
  { st with
      dialogue := "jump. then wait. then jump.",
      bones := st.bones ++ (List.range 6).map fun i =>
      { x := 120 + 60 * (i : ℚ), y := 420 - 40 * (i : ℚ), w := 60, h := 10,
        color := BoneColor.white, vx := 0, vy := 0 } }

/-- Immediate effects of `patternBlueWhiteColumns`: ten alternating
white/blue columns; the blasters are deferred. -/
def patternBlueWhiteColumns (st : State) : State :=
  { st with
      dialogue := "move a little. then don\x27t.",
      bones := st.bones ++ (List.range 10).map fun i =>
      { x := 120 + 36 * (i : ℚ), y := 210, w := 20, h := 180,
        color := if i % 2 = 0 then BoneColor.white else BoneColor.blue,
        vx := 0, vy := 0 } }

/-- Immediate effects of `patternPendulum`: five small bones at
sine-offset heights. -/
def patternPendulum (st : State) : State :=
  { st with
      dialogue := "watch the swing.",
      bones := st.bones ++ (List.range 5).map fun i =>
      { x := 320 - 6, y := 240 + (sinVals.getD i 0) * 120, w := 12, h := 12,
        color := BoneColor.white, vx := 0, vy := 0 } }

/-- Immediate effects of `patternTelekinesisDrops`: the initial velocity
nudge plus five floor bones; later nudges and blasters are deferred. -/
def patternTelekinesisDrops (st : State) : State :=
  { st with
      dialogue := "buffer your landings.",
      pvx := 6,
      pvy := -8,
      bones := st.bones ++ (List.range 5).map fun i =>
      { x := 200 + 40 * (i : ℚ), y := 440, w := 24, h := 8,
        color := BoneColor.white, vx := 0, vy := 0 } }

/-- Immediate effects of `patternMazeRun`: paired white floor and blue
ceiling bones; the blaster is deferred. -/
def patternMazeRun (st : State) : State :=
  { st with
      dialogue := "small hops. no panic.",
      bones := st.bones ++ ((List.range 8).map fun i =>
      [ { x := 80 + 64 * (i : ℚ), y := 440, w := 40, h := 8,
          color := BoneColor.white, vx := 0, vy := 0 },
        { x := 80 + 64 * (i : ℚ), y := 220, w := 40, h := 8,
          color := BoneColor.blue, vx := 0, vy := 0 } ]).flatten }

/-- Immediate effects of `patternSawtoothFlip`: six alternating bones; the
gravity flips and the blaster are deferred. -/
def patternSawtoothFlip (st : State) : State :=
  { st with
      dialogue := "up is down.",
      bones := st.bones ++ (List.range 6).map fun i =>
      { x := 60 + 90 * (i : ℚ), y := 400 - (i % 2 : ℚ) * 120, w := 80, h := 10,
        color := if i % 2 = 1 then BoneColor.blue else BoneColor.white,
        vx := 0, vy := 0 } }

/-- Immediate effects of `patternGauntlet`: only the dialogue line; every
spawn of this pattern is deferred. -/
def patternGauntlet (st : State) : State :=
  { st with dialogue := "route early." }

/-- Pattern dispatch of `nextAttack`: the eight scripted patterns, and past
them the permanent switch into the special stall. -/
def runPattern (p : ℕ) (st : State) : State :=
  match p with
  | 0 => patternSweepAndBlaster st
  | 1 => patternStairsAndSwipe st
  | 2 => patternBlueWhiteColumns st
  | 3 => patternPendulum st
  | 4 => patternTelekinesisDrops st
  | 5 => patternMazeRun st
  | 6 => patternSawtoothFlip st
  | 7 => patternGauntlet st
  | _ => specialAttackStallSetup { st with specialStall := true }

/-- Source function `nextAttack`: clear the entities, reset player motion
and the subphase clock, take and increment the phase index, then either
re-run the stall setup (while in the stall) or run the next pattern. -/
def nextAttack (st : State) : State :=
  let st := { st with bones := [], blasters := [], pvx := 0, pvy := 0,
                      moveThisFrame := false, subphaseTime := 0 }
  let p := st.phaseIndex
  let st := { st with phaseIndex := p + 1 }
  if st.specialStall then specialAttackStallSetup st else runPattern p st

/-- Source function `onMenuAction(action)`: ignored while the menu is
closed; the stall finisher wins the encounter on FIGHT after a long nap;
otherwise every action closes the menu and runs the next attack, ITEM
additionally healing 18 clamped to `hpMax`. -/
def onMenuAction (a : MenuAction) (st : State) : State :=
  if st.inMenu = false then st
  else if st.specialStall = true ∧ st.napMode = true ∧ st.stallTimer > 8000 ∧
      a = MenuAction.fight ∧ st.finished = false then
    { st with inMenu := false,
              dialogue := "you swing while he sleeps. it\x27s over.",
              finished := true, running := false }
  else
    match a with
    | MenuAction.fight => nextAttack { st with inMenu := false }
    | MenuAction.act =>
        nextAttack { st with dialogue := "he doesn\x27t seem interested.",
                             inMenu := false }
    | MenuAction.item =>
        nextAttack { st with hp := min st.hpMax (st.hp + 18),
                             dialogue := "you use a healing item.",
                             inMenu := false }
    | MenuAction.mercy =>
        nextAttack { st with dialogue := "not an option.", inMenu := false }

/-- Keys snapshot with nothing held. -/
def keys0 : Keys :=
  { arrowleft := false, arrowright := false, arrowup := false,
    arrowdown := false, a := false, d := false, w := false, s := false,
    space := false }

/-- Initial state of the engine: the `game` and `player` literals of the
source (canvas 640 by 480), before `boot` starts the intro. -/
def initialState : State :=
  { width := 640, height := 480, frame := 0, running := true, phaseIndex := 0,
    subphaseTime := 0, gravity := 0.7, soulColor := SoulColor.blue,
    inMenu := false, specialStall := false, finished := false,
    introActive := false, px := 320, py := 360, pvx := 0, pvy := 0,
    pwidth := 12, pheight := 12, speed := 3.0, jump := 9.0, onGround := false,
    moveThisFrame := false, hp := 92, hpMax := 92, kr := 0, bones := [],
    blasters := [], stallTimer := 0, napMode := false, dialogue := "" }

/-- Invariant of claim C2: corruption within its hard cap and hp at most
`hpMax`. -/
def BattleInv (st : State) : Prop := 0 ≤ st.kr ∧ st.kr ≤ 60 ∧ st.hp ≤ st.hpMax

/-- Blue-counting helper: the number of Guarded (blue) bones in a list. -/
def blueCount (bs : List Bone) : ℕ :=
  (bs.filter fun b => decide (b.color = BoneColor.blue)).length

/-- Scenario state of claim C1: the initial soul (hp 92, kr 0) switched to
red mode and parked on a single overlapping Neutral bone. -/
def scenarioC1 : State :=
  { initialState with
      soulColor := SoulColor.red,
      px := 294,
      py := 294,
      bones := [{ x := 294, y := 294, w := 12, h := 12,
                  color := BoneColor.white, vx := 0, vy := 0 }] }

/-- State of claims C3 and C5: hp already low, corruption at the cap, no
obstacles at all, soul in red mode so that an idle tick moves nothing. -/
def drainDeathState : State :=
  { initialState with soulColor := SoulColor.red, hp := 1, kr := 60 }

/-- Blaster of claim C4 at the firing boundary: after the next per-tick
decrement its remaining lifetime is exactly 40, it faces along the
positive x axis, and the soul center of `beamEdgeState` sits on its ray. -/
def beamEdgeBlaster : Blaster :=
  { x := 100, y := 300, dirX := 1, dirY := 0, charge := 30, fire := 20,
    life := 41 }

/-- State of claim C4: red soul whose center (300, 300) lies on the ray of
`beamEdgeBlaster`, 200 units in front of it. -/
def beamEdgeState : State :=
  { initialState with
      soulColor := SoulColor.red,
      px := 294,
      py := 294,
      blasters := [beamEdgeBlaster] }

/-- Firing blaster used by the claim C4 witness: remaining lifetime 39,
facing along the positive x axis from (100, 300). -/
def firingBlaster : Blaster :=
  { x := 100, y := 300, dirX := 1, dirY := 0, charge := 30, fire := 20,
    life := 39 }

/-- Stall state of claim C6: menu open during the special stall, nap long
past the finisher threshold, the cage standing with the guard-drop blue
bone already added, mid-pattern clock nonzero. -/
def stallMenuState : State :=
  { initialState with
      soulColor := SoulColor.red,
      specialStall := true,
      napMode := true,
      stallTimer := 9000,
      inMenu := true,
      phaseIndex := 9,
      subphaseTime := 500,
      bones := stallCage ++ [cageTopBlue] }

/-- Stall state of claim C7: idle timer already past the 6000 ms guard-drop
threshold, nap mode on, the plain white cage standing, soul idle in a
corner away from the cage. -/
def stallIdleState : State :=
  { initialState with
      soulColor := SoulColor.red,
      px := 100,
      py := 100,
      specialStall := true,
      napMode := true,
      stallTimer := 6500,
      bones := stallCage }

/-- Keys snapshot of claim C8 with only the up arrow held. -/
def keysUpOnly : Keys := { keys0 with arrowup := true }

/-- State of claim C9: a freshly spawned blaster whose lifetime a zero-delta
tick still decrements. -/
def zeroDeltaState : State :=
  { initialState with
      soulColor := SoulColor.red,
      blasters := [{ x := 300, y := 300, dirX := 1, dirY := 0, charge := 30,
                     fire := 20, life := 70 }] }

/-- State of claim C10: the intro dialogue still active. -/
def introState : State := { initialState with introActive := true }

/-! Helper lemmas: basic facts about `hurt`, the per-stage field
projections, and preservation of the hp/corruption invariant. -/

theorem hurt_hp (a k : ℚ) (st : State) : (hurt a k st).hp = st.hp - a := by
  unfold hurt; dsimp only; split <;> rfl

theorem hurt_kr (a k : ℚ) (st : State) :
    (hurt a k st).kr = min 60 (st.kr + k) := by
  unfold hurt; dsimp only; split <;> rfl

theorem hurt_hpMax (a k : ℚ) (st : State) : (hurt a k st).hpMax = st.hpMax := by
  unfold hurt; dsimp only; split <;> rfl

theorem hurt_blasters (a k : ℚ) (st : State) :
    (hurt a k st).blasters = st.blasters := by
  unfold hurt; dsimp only; split <;> rfl

/-- Transport of the invariant along equal hp, kr and hpMax fields. -/
theorem battleInv_of_fields {s t : State} (hhp : t.hp = s.hp)
    (hkr : t.kr = s.kr) (hmax : t.hpMax = s.hpMax) (h : BattleInv s) :
    BattleInv t := by
  unfold BattleInv at h ⊢
  rw [hhp, hkr, hmax]; exact h

theorem hurt_inv {a k : ℚ} (ha : 0 ≤ a) (hk : 0 ≤ k) {st : State}
    (h : BattleInv st) : BattleInv (hurt a k st) := by
  obtain ⟨h1, h2, h3⟩ := h
  refine ⟨?_, ?_, ?_⟩
  · rw [hurt_kr]; exact le_min (by norm_num) (by linarith)
  · rw [hurt_kr]; exact min_le_left _ _
  · rw [hurt_hp, hurt_hpMax]; linarith

theorem boneCollide_inv (b : Bone) {st : State} (h : BattleInv st) :
    BattleInv (boneCollide b st) := by
  unfold boneCollide
  split
  · split
    · exact hurt_inv (by norm_num) (by norm_num) h
    · split
      · exact hurt_inv (by norm_num) (by norm_num) h
      · exact h
  · exact h

theorem blasterCollide_inv (g : Blaster) {st : State} (h : BattleInv st) :
    BattleInv (blasterCollide g st) := by
  unfold blasterCollide
  split
  · split
    · exact hurt_inv (by norm_num) (by norm_num) h
    · exact h
  · exact h

/-- Preservation of a predicate along a left fold. -/
theorem foldl_pres {α : Type} (f : State → α → State) (P : State → Prop)
    (hf : ∀ s x, P s → P (f s x)) :
    ∀ (l : List α) (s : State), P s → P (l.foldl f s)
  | [], _, h => h
  | x :: xs, s, h => foldl_pres f P hf xs (f s x) (hf s x h)

theorem boneCollisions_inv {st : State} (h : BattleInv st) :
    BattleInv (boneCollisions st) :=
  foldl_pres _ BattleInv (fun _ b hs => boneCollide_inv b hs) st.bones st h

theorem blasterCollisions_inv {st : State} (h : BattleInv st) :
    BattleInv (blasterCollisions st) :=
  foldl_pres _ BattleInv (fun _ g hs => blasterCollide_inv g hs) st.blasters st h

theorem applyKR_inv {d : ℚ} (hd : 0 ≤ d) {st : State} (h : BattleInv st) :
    BattleInv (applyKR d st) := by
  obtain ⟨h1, h2, h3⟩ := h
  unfold applyKR
  split
  · exact ⟨h1, h2, h3⟩
  · rename_i hpos
    push_neg at hpos
    refine ⟨le_max_left _ _, ?_, ?_⟩
    · exact max_le (by norm_num) (by nlinarith)
    · have : 0 ≤ min st.kr (0.08 * d) := le_min (le_of_lt hpos) (by nlinarith)
      simp only
      linarith

theorem menuTiming_fields (st : State) :
    (menuTiming st).hp = st.hp ∧ (menuTiming st).kr = st.kr ∧
      (menuTiming st).hpMax = st.hpMax := by
  unfold menuTiming; split <;> exact ⟨rfl, rfl, rfl⟩

theorem physicsRed_fields (k : Keys) (st : State) :
    (physicsRed k st).hp = st.hp ∧ (physicsRed k st).kr = st.kr ∧
      (physicsRed k st).hpMax = st.hpMax := by
  unfold physicsRed
  dsimp only
  split <;> split <;> split <;> split <;> exact ⟨rfl, rfl, rfl⟩

theorem blueInput_fields (k : Keys) (st : State) :
    (blueInput k st).hp = st.hp ∧ (blueInput k st).kr = st.kr ∧
      (blueInput k st).hpMax = st.hpMax := by
  unfold blueInput
  dsimp only
  split <;> split <;> first | exact ⟨rfl, rfl, rfl⟩ | (split <;> exact ⟨rfl, rfl, rfl⟩)

theorem blueIntegrate_fields (st : State) :
    (blueIntegrate st).hp = st.hp ∧ (blueIntegrate st).kr = st.kr ∧
      (blueIntegrate st).hpMax = st.hpMax := by
  unfold blueIntegrate
  dsimp only
  split <;> split <;> exact ⟨rfl, rfl, rfl⟩

theorem physics_fields (k : Keys) (st : State) :
    (physics k st).hp = st.hp ∧ (physics k st).kr = st.kr ∧
      (physics k st).hpMax = st.hpMax := by
  unfold physics physicsBlue
  cases hc : st.soulColor <;> dsimp only [hc]
  · exact physicsRed_fields k _
  · exact ⟨(blueIntegrate_fields _).1.trans (blueInput_fields k _).1,
      (blueIntegrate_fields _).2.1.trans (blueInput_fields k _).2.1,
      (blueIntegrate_fields _).2.2.trans (blueInput_fields k _).2.2⟩

theorem clampToStage_fields (st : State) :
    (clampToStage st).hp = st.hp ∧ (clampToStage st).kr = st.kr ∧
      (clampToStage st).hpMax = st.hpMax := ⟨rfl, rfl, rfl⟩

theorem advanceBones_fields (st : State) :
    (advanceBones st).hp = st.hp ∧ (advanceBones st).kr = st.kr ∧
      (advanceBones st).hpMax = st.hpMax := ⟨rfl, rfl, rfl⟩

theorem cullBones_fields (st : State) :
    (cullBones st).hp = st.hp ∧ (cullBones st).kr = st.kr ∧
      (cullBones st).hpMax = st.hpMax := ⟨rfl, rfl, rfl⟩

theorem advanceBlasters_fields (st : State) :
    (advanceBlasters st).hp = st.hp ∧ (advanceBlasters st).kr = st.kr ∧
      (advanceBlasters st).hpMax = st.hpMax := ⟨rfl, rfl, rfl⟩

theorem cullBlasters_fields (st : State) :
    (cullBlasters st).hp = st.hp ∧ (cullBlasters st).kr = st.kr ∧
      (cullBlasters st).hpMax = st.hpMax := ⟨rfl, rfl, rfl⟩

theorem tryAllowStallEscape_fields (k : Keys) (d : ℚ) (st : State) :
    (tryAllowStallEscape k d st).hp = st.hp ∧
      (tryAllowStallEscape k d st).kr = st.kr ∧
      (tryAllowStallEscape k d st).hpMax = st.hpMax := by
  unfold tryAllowStallEscape
  dsimp only
  split
  · exact ⟨rfl, rfl, rfl⟩
  · split <;> split <;> split <;> exact ⟨rfl, rfl, rfl⟩

theorem stallFinisherCheck_fields (st : State) :
    (stallFinisherCheck st).hp = st.hp ∧ (stallFinisherCheck st).kr = st.kr ∧
      (stallFinisherCheck st).hpMax = st.hpMax := by
  unfold stallFinisherCheck; split <;> exact ⟨rfl, rfl, rfl⟩

theorem tick_inv (k : Keys) {d : ℚ} (hd : 0 ≤ d) {st : State}
    (h : BattleInv st) : BattleInv (tick k d st) := by
  unfold tick
  have h1 := battleInv_of_fields (menuTiming_fields st).1
    (menuTiming_fields st).2.1 (menuTiming_fields st).2.2 h
  have h2 := battleInv_of_fields (physics_fields k _).1
    (physics_fields k _).2.1 (physics_fields k _).2.2 h1
  have h3 := battleInv_of_fields (clampToStage_fields _).1
    (clampToStage_fields _).2.1 (clampToStage_fields _).2.2 h2
  have h4 := battleInv_of_fields (advanceBones_fields _).1
    (advanceBones_fields _).2.1 (advanceBones_fields _).2.2 h3
  have h5 := battleInv_of_fields (cullBones_fields _).1
    (cullBones_fields _).2.1 (cullBones_fields _).2.2 h4
  have h6 := battleInv_of_fields (advanceBlasters_fields _).1
    (advanceBlasters_fields _).2.1 (advanceBlasters_fields _).2.2 h5
  have h7 := battleInv_of_fields (cullBlasters_fields _).1
    (cullBlasters_fields _).2.1 (cullBlasters_fields _).2.2 h6
  have h8 := boneCollisions_inv h7
  have h9 := blasterCollisions_inv h8
  have hA := applyKR_inv hd h9
  have hB := battleInv_of_fields (tryAllowStallEscape_fields k d _).1
    (tryAllowStallEscape_fields k d _).2.1 (tryAllowStallEscape_fields k d _).2.2 hA
  exact battleInv_of_fields (stallFinisherCheck_fields _).1
    (stallFinisherCheck_fields _).2.1 (stallFinisherCheck_fields _).2.2 hB

theorem runPattern_fields (p : ℕ) (st : State) :
    (runPattern p st).hp = st.hp ∧ (runPattern p st).kr = st.kr ∧
      (runPattern p st).hpMax = st.hpMax := by
  unfold runPattern
  split <;> exact ⟨rfl, rfl, rfl⟩

theorem nextAttack_fields (st : State) :
    (nextAttack st).hp = st.hp ∧ (nextAttack st).kr = st.kr ∧
      (nextAttack st).hpMax = st.hpMax := by
  unfold nextAttack
  dsimp only
  split
  · exact ⟨rfl, rfl, rfl⟩
  · exact runPattern_fields _ _

theorem onMenuAction_inv (a : MenuAction) {st : State} (h : BattleInv st) :
    BattleInv (onMenuAction a st) := by
  obtain ⟨h1, h2, h3⟩ := h
  unfold onMenuAction
  split
  · exact ⟨h1, h2, h3⟩
  · split
    · exact ⟨h1, h2, h3⟩
    · cases a
      · exact battleInv_of_fields (nextAttack_fields _).1
          (nextAttack_fields _).2.1 (nextAttack_fields _).2.2 ⟨h1, h2, h3⟩
      · exact battleInv_of_fields (nextAttack_fields _).1
          (nextAttack_fields _).2.1 (nextAttack_fields _).2.2 ⟨h1, h2, h3⟩
      · exact battleInv_of_fields (nextAttack_fields _).1
          (nextAttack_fields _).2.1 (nextAttack_fields _).2.2
          ⟨h1, h2, min_le_left _ _⟩
      · exact battleInv_of_fields (nextAttack_fields _).1
          (nextAttack_fields _).2.1 (nextAttack_fields _).2.2 ⟨h1, h2, h3⟩

theorem boneCollide_blasters (b : Bone) (st : State) :
    (boneCollide b st).blasters = st.blasters := by
  unfold boneCollide
  split
  · split
    · exact hurt_blasters _ _ _
    · split
      · exact hurt_blasters _ _ _
      · rfl
  · rfl

theorem blasterCollide_blasters (g : Blaster) (st : State) :
    (blasterCollide g st).blasters = st.blasters := by
  unfold blasterCollide
  split
  · split
    · exact hurt_blasters _ _ _
    · rfl
  · rfl

theorem boneCollisions_blasters (st : State) :
    (boneCollisions st).blasters = st.blasters :=
  foldl_pres _ (fun s => s.blasters = st.blasters)
    (fun s b hs => (boneCollide_blasters b s).trans hs) st.bones st rfl

theorem blasterCollisions_blasters (st : State) :
    (blasterCollisions st).blasters = st.blasters :=
  foldl_pres _ (fun s => s.blasters = st.blasters)
    (fun s g hs => (blasterCollide_blasters g s).trans hs) st.blasters st rfl

theorem applyKR_blasters (d : ℚ) (st : State) :
    (applyKR d st).blasters = st.blasters := by
  unfold applyKR; split <;> rfl

theorem tryAllowStallEscape_blasters (k : Keys) (d : ℚ) (st : State) :
    (tryAllowStallEscape k d st).blasters = st.blasters := by
  unfold tryAllowStallEscape
  dsimp only
  split
  · rfl
  · split <;> split <;> split <;> rfl

theorem stallFinisherCheck_blasters (st : State) :
    (stallFinisherCheck st).blasters = st.blasters := by
  unfold stallFinisherCheck; split <;> rfl

theorem menuTiming_blasters (st : State) :
    (menuTiming st).blasters = st.blasters := by
  unfold menuTiming; split <;> rfl

theorem physicsRed_blasters (k : Keys) (st : State) :
    (physicsRed k st).blasters = st.blasters := by
  unfold physicsRed
  dsimp only
  split <;> split <;> split <;> split <;> rfl

theorem blueInput_blasters (k : Keys) (st : State) :
    (blueInput k st).blasters = st.blasters := by
  unfold blueInput
  dsimp only
  split <;> split <;> first | rfl | (split <;> rfl)

theorem blueIntegrate_blasters (st : State) :
    (blueIntegrate st).blasters = st.blasters := by
  unfold blueIntegrate
  dsimp only
  split <;> split <;> rfl

theorem physics_blasters (k : Keys) (st : State) :
    (physics k st).blasters = st.blasters := by
  unfold physics physicsBlue
  cases hc : st.soulColor <;> dsimp only [hc]
  · exact physicsRed_blasters k _
  · exact (blueIntegrate_blasters _).trans (blueInput_blasters k _)

theorem clampToStage_blasters (st : State) :
    (clampToStage st).blasters = st.blasters := rfl

theorem advanceBones_blasters (st : State) :
    (advanceBones st).blasters = st.blasters := rfl

theorem cullBones_blasters (st : State) :
    (cullBones st).blasters = st.blasters := rfl

theorem advanceBlasters_blasters_eq (st : State) :
    (advanceBlasters st).blasters =
      st.blasters.map fun g => { g with life := g.life - 1 } := rfl

theorem cullBlasters_blasters_eq (st : State) :
    (cullBlasters st).blasters =
      st.blasters.filter fun g => decide (¬(g.life ≤ 0)) := rfl

theorem tick_blasters (k : Keys) (d : ℚ) (st : State) :
    (tick k d st).blasters =
      (st.blasters.map fun g => { g with life := g.life - 1 }).filter
        fun g => decide (¬(g.life ≤ 0)) := by
  unfold tick
  rw [stallFinisherCheck_blasters, tryAllowStallEscape_blasters,
    applyKR_blasters, blasterCollisions_blasters, boneCollisions_blasters,
    cullBlasters_blasters_eq, advanceBlasters_blasters_eq,
    cullBones_blasters, advanceBones_blasters, clampToStage_blasters,
    physics_blasters, menuTiming_blasters]

theorem menuTiming_frame (st : State) : (menuTiming st).frame = st.frame := by
  unfold menuTiming; split <;> rfl

theorem physicsRed_frame (k : Keys) (st : State) :
    (physicsRed k st).frame = st.frame := by
  unfold physicsRed
  dsimp only
  split <;> split <;> split <;> split <;> rfl

theorem blueInput_frame (k : Keys) (st : State) :
    (blueInput k st).frame = st.frame := by
  unfold blueInput
  dsimp only
  split <;> split <;> first | rfl | (split <;> rfl)

theorem blueIntegrate_frame (st : State) :
    (blueIntegrate st).frame = st.frame := by
  unfold blueIntegrate
  dsimp only
  split <;> split <;> rfl

theorem physics_frame (k : Keys) (st : State) :
    (physics k st).frame = st.frame := by
  unfold physics physicsBlue
  cases hc : st.soulColor <;> dsimp only [hc]
  · exact physicsRed_frame k _
  · exact (blueIntegrate_frame _).trans (blueInput_frame k _)

theorem hurt_frame (a c : ℚ) (st : State) : (hurt a c st).frame = st.frame := by
  unfold hurt; dsimp only; split <;> rfl

theorem boneCollide_frame (b : Bone) (st : State) :
    (boneCollide b st).frame = st.frame := by
  unfold boneCollide
  split
  · split
    · exact hurt_frame _ _ _
    · split
      · exact hurt_frame _ _ _
      · rfl
  · rfl

theorem blasterCollide_frame (g : Blaster) (st : State) :
    (blasterCollide g st).frame = st.frame := by
  unfold blasterCollide
  split
  · split
    · exact hurt_frame _ _ _
    · rfl
  · rfl

theorem applyKR_frame (d : ℚ) (st : State) : (applyKR d st).frame = st.frame := by
  unfold applyKR; split <;> rfl

theorem tryAllowStallEscape_frame (k : Keys) (d : ℚ) (st : State) :
    (tryAllowStallEscape k d st).frame = st.frame := by
  unfold tryAllowStallEscape
  dsimp only
  split
  · rfl
  · split <;> split <;> split <;> rfl

theorem stallFinisherCheck_frame (st : State) :
    (stallFinisherCheck st).frame = st.frame := by
  unfold stallFinisherCheck; split <;> rfl

theorem boneCollisions_frame (st : State) :
    (boneCollisions st).frame = st.frame :=
  foldl_pres _ (fun s => s.frame = st.frame)
    (fun s b hs => (boneCollide_frame b s).trans hs) st.bones st rfl

theorem blasterCollisions_frame (st : State) :
    (blasterCollisions st).frame = st.frame :=
  foldl_pres _ (fun s => s.frame = st.frame)
    (fun s g hs => (blasterCollide_frame g s).trans hs) st.blasters st rfl

theorem clampToStage_frame (st : State) :
    (clampToStage st).frame = st.frame := rfl

theorem advanceBones_frame (st : State) :
    (advanceBones st).frame = st.frame := rfl

theorem cullBones_frame (st : State) :
    (cullBones st).frame = st.frame := rfl

theorem advanceBlasters_frame (st : State) :
    (advanceBlasters st).frame = st.frame := rfl

theorem cullBlasters_frame (st : State) :
    (cullBlasters st).frame = st.frame := rfl

theorem tick_frame (k : Keys) (d : ℚ) (st : State) :
    (tick k d st).frame = st.frame := by
  unfold tick
  rw [stallFinisherCheck_frame, tryAllowStallEscape_frame, applyKR_frame,
    blasterCollisions_frame, boneCollisions_frame, cullBlasters_frame,
    advanceBlasters_frame, cullBones_frame, advanceBones_frame,
    clampToStage_frame, physics_frame, menuTiming_frame]

theorem nextAttack_finished (st : State) :
    (nextAttack st).finished = st.finished := by
  unfold nextAttack
  dsimp only
  split
  · rfl
  · unfold runPattern
    split <;> rfl

theorem nextAttack_phase (st : State) :
    (nextAttack st).phaseIndex = st.phaseIndex + 1 := by
  unfold nextAttack
  dsimp only
  split
  · rfl
  · unfold runPattern
    split <;> rfl

theorem update_frame_of_running {k : Keys} {d : ℚ} {st : State}
    (h : st.running = true) : (update k d st).frame = st.frame + 1 := by
  unfold update
  rw [if_neg (by simp [h])]
  dsimp only
  split
  · rfl
  · exact tick_frame k d _

theorem blueIntegrate_move (st : State) :
    (blueIntegrate st).moveThisFrame = st.moveThisFrame := by
  unfold blueIntegrate
  dsimp only
  split <;> split <;> rfl

theorem blueInput_move (k : Keys) (st : State) (hM : st.moveThisFrame = false) :
    (blueInput k st).moveThisFrame =
      (leftHeld k || rightHeld k || (upHeld k && st.onGround)) := by
  cases hL : leftHeld k <;> cases hR : rightHeld k <;> cases hU : upHeld k <;>
    cases hG : st.onGround <;>
    simp [blueInput, hL, hR, hU, hG, hM]

/-- C1: per-tick bone damage resolution.  A bone hits the soul exactly when
its rectangle overlaps the soul rectangle and it is Neutral (white) or the
soul moved this tick; each such bone applies exactly the fixed hit
`hurt 1.2 5` (hp −1.2, corruption +5 clamped at 60); a Guarded (blue)
overlap with `moveThisFrame = false` leaves the state untouched.  In the
scenario state (hp 92, corruption 0, one overlapping Neutral bone), the
bone-collision stage of the tick ends with hp 90.8 and corruption 5. -/
theorem bone_damage_per_tick :
    (∀ (st : State) (b : Bone),
        boneCollide b st =
          if rectsOverlap st.px st.py st.pwidth st.pheight b.x b.y b.w b.h ∧
              (b.color = BoneColor.white ∨ st.moveThisFrame = true) then
            hurt 1.2 5 st
          else st) ∧
    (∀ (st : State) (b : Bone),
        b.color = BoneColor.blue → st.moveThisFrame = false →
          boneCollide b st = st) ∧
    (∀ st : State, (hurt 1.2 5 st).hp = st.hp - 1.2 ∧
        (hurt 1.2 5 st).kr = min 60 (st.kr + 5)) ∧
    (boneCollisions scenarioC1).hp = 90.8 ∧ (boneCollisions scenarioC1).kr = 5 := by
  refine ⟨?_, ?_, fun st => ⟨hurt_hp _ _ _, hurt_kr _ _ _⟩, ?_, ?_⟩
  · intro st b
    by_cases hov : rectsOverlap st.px st.py st.pwidth st.pheight b.x b.y b.w b.h <;>
      cases hcol : b.color <;> cases hmv : st.moveThisFrame <;>
      simp [boneCollide, hov, hcol, hmv]
  · intro st b h1 h2
    simp [boneCollide, h1, h2]
  · norm_num [boneCollisions, boneCollide, scenarioC1, initialState,
      rectsOverlap, hurt]
  · norm_num [boneCollisions, boneCollide, scenarioC1, initialState,
      rectsOverlap, hurt]

/-- Witness for C1 at concrete inputs: a Guarded bone overlapping the
scenario soul with no movement leaves the state unchanged. -/
theorem bone_damage_per_tick_witness :
    boneCollide { cageTopBlue with x := 294, y := 294, w := 12, h := 12 } scenarioC1 = scenarioC1 :=
  bone_damage_per_tick.2.1 scenarioC1
    { cageTopBlue with x := 294, y := 294, w := 12, h := 12 } rfl rfl

/-- C2: the initial state satisfies `0 ≤ corruption ≤ 60 ∧ hp ≤ hpMax`, and
the invariant is preserved by every `update` call (with the nonnegative
frame delta the driver produces) and by every menu action, hence by every
reachable sequence of hits, heals and drains. -/
theorem update_preserves_core_invariants :
    BattleInv initialState ∧
    (∀ (k : Keys) (d : ℚ) (st : State), 0 ≤ d → BattleInv st →
        BattleInv (update k d st)) ∧
    (∀ (a : MenuAction) (st : State), BattleInv st →
        BattleInv (onMenuAction a st)) := by
  refine ⟨by norm_num [BattleInv, initialState], ?_, ?_⟩
  · intro k d st hd h
    unfold update
    split
    · exact h
    · dsimp only
      split
      · exact battleInv_of_fields rfl rfl rfl h
      · exact tick_inv k hd (battleInv_of_fields rfl rfl rfl h)
  · intro a st h
    exact onMenuAction_inv a h

/-- Witness for C2: one concrete tick from the initial state keeps the
invariant. -/
theorem update_preserves_core_invariants_witness :
    BattleInv (update keys0 16 initialState) :=
  update_preserves_core_invariants.2.1 keys0 16 initialState (by norm_num)
    update_preserves_core_invariants.1

/-- C10: while the intro dialogue is active and the game is running, an
`update` call changes exactly the frame counter and the subphase timer and
nothing else (soul, hp, corruption, entities, phase, menu flag). -/
theorem intro_update_only_timers :
    ∀ (k : Keys) (d : ℚ) (st : State), st.running = true →
      st.introActive = true →
      update k d st =
        { st with frame := st.frame + 1,
                  subphaseTime := st.subphaseTime + d } := by
  intro k d st h1 h2
  unfold update
  rw [if_neg (by simp [h1])]
  dsimp only
  rw [if_pos]
  exact h2

/-- Witness for C10: a concrete intro-phase tick. -/
theorem intro_update_only_timers_witness :
    update keys0 16 introState =
      { introState with frame := introState.frame + 1,
                        subphaseTime := introState.subphaseTime + 16 } :=
  intro_update_only_timers keys0 16 introState rfl rfl

/-- C3 counterexample: corruption drain alone takes hp from 1 to below 0 in
one tick, yet the game keeps running, the death message is never shown, and
the following `update` call still advances the frame (it is not a no-op) —
so hp ≤ 0 does not put the encounter into the loss state from every path. -/
theorem kr_drain_skips_loss_cex :
    0 < drainDeathState.hp ∧
    (update keys0 32 drainDeathState).hp < 0 ∧
    (update keys0 32 drainDeathState).running = true ∧
    (update keys0 32 drainDeathState).dialogue ≠ "you died. refresh to retry." ∧
    (update keys0 32 (update keys0 32 drainDeathState)).frame =
      (update keys0 32 drainDeathState).frame + 1 := by
  have hrun : (update keys0 32 drainDeathState).running = true := by
    norm_num [update, tick, stallFinisherCheck, tryAllowStallEscape, applyKR,
      blasterCollisions, blasterCollide, beamProj, beamPerp, boneCollisions,
      boneCollide, rectsOverlap, hurt, cullBlasters, advanceBlasters, cullBones,
      advanceBones, clampToStage, physics, physicsRed, physicsBlue, blueInput,
      blueIntegrate, signQ, leftHeld, rightHeld, upHeld, downHeld, menuTiming,
      keys0, drainDeathState, initialState]
  refine ⟨by norm_num [drainDeathState, initialState], ?_, hrun, ?_,
    update_frame_of_running hrun⟩
  · norm_num [update, tick, stallFinisherCheck, tryAllowStallEscape, applyKR,
      blasterCollisions, blasterCollide, beamProj, beamPerp, boneCollisions,
      boneCollide, rectsOverlap, hurt, cullBlasters, advanceBlasters, cullBones,
      advanceBones, clampToStage, physics, physicsRed, physicsBlue, blueInput,
      blueIntegrate, signQ, leftHeld, rightHeld, upHeld, downHeld, menuTiming,
      keys0, drainDeathState, initialState]
  · norm_num [update, tick, stallFinisherCheck, tryAllowStallEscape, applyKR,
      blasterCollisions, blasterCollide, beamProj, beamPerp, boneCollisions,
      boneCollide, rectsOverlap, hurt, cullBlasters, advanceBlasters, cullBones,
      advanceBones, clampToStage, physics, physicsRed, physicsBlue, blueInput,
      blueIntegrate, signQ, leftHeld, rightHeld, upHeld, downHeld, menuTiming,
      keys0, drainDeathState, initialState]
    decide

/-- C3 (amended): whenever a bone or beam hit (the `hurt` path) takes hp to
0 or below, the encounter enters the loss state — the game stops running and
the fixed end-of-run message is shown — and once stopped, every further
`update` call is a no-op; corruption drain alone does not trigger the loss
check. -/
theorem loss_via_hurt_amended :
    (∀ (a c : ℚ) (st : State), (hurt a c st).hp ≤ 0 →
        (hurt a c st).running = false ∧
        (hurt a c st).dialogue = "you died. refresh to retry.") ∧
    (∀ (k : Keys) (d : ℚ) (st : State), st.running = false →
        update k d st = st) := by
  constructor
  · intro a c st
    unfold hurt
    dsimp only
    split
    · intro _; exact ⟨rfl, rfl⟩
    · rename_i hgt
      intro h; exact absurd h hgt
  · intro k d st h
    unfold update
    rw [if_pos h]

/-- Witness for the amended C3: a 100-damage hit from the initial state
stops the game, and the next tick is a no-op. -/
theorem loss_via_hurt_amended_witness :
    (hurt 100 5 initialState).running = false ∧
    update keys0 16 (hurt 100 5 initialState) = hurt 100 5 initialState := by
  have h1 := loss_via_hurt_amended.1 100 5 initialState
    (by rw [hurt_hp]; norm_num [initialState])
  exact ⟨h1.1, loss_via_hurt_amended.2 keys0 16 _ h1.1⟩

/-- C4 (amended): a blaster whose remaining lifetime at the collision check
(after the tick decrement) is 40 or more never damages the soul; a firing
blaster whose perpendicular distance is ≥ the beam half-width 22 never
damages the soul; a blaster whose forward projection lies outside the open
interval (0, 800) — behind the emitter or past the beam length — never
damages the soul; and a blaster with lifetime strictly below 40 whose ray
test passes (forward projection strictly between 0 and 800, perpendicular
distance strictly below 22) applies exactly the beam hit `hurt 0.9 6`:
together these establish the hit condition as a full iff. -/
theorem blaster_beam_hit_amended :
    (∀ (st : State) (g : Blaster), 40 ≤ g.life → blasterCollide g st = st) ∧
    (∀ (st : State) (g : Blaster), 22 ≤ beamPerp st g →
        blasterCollide g st = st) ∧
    (∀ (st : State) (g : Blaster), beamProj st g ≤ 0 →
        blasterCollide g st = st) ∧
    (∀ (st : State) (g : Blaster), 800 ≤ beamProj st g →
        blasterCollide g st = st) ∧
    (∀ (st : State) (g : Blaster), g.life < 40 → 0 < beamProj st g →
        beamProj st g < 800 → beamPerp st g < 22 →
        blasterCollide g st = hurt 0.9 6 st) := by
  refine ⟨?_, ?_, ?_, ?_, ?_⟩
  · intro st g h
    unfold blasterCollide
    rw [if_neg (by omega)]
  · intro st g h
    unfold blasterCollide
    split
    · rw [if_neg]
      intro hcond
      exact absurd hcond.2.2 (not_lt.mpr h)
    · rfl
  · intro st g h
    unfold blasterCollide
    split
    · rw [if_neg]
      intro hcond
      exact absurd hcond.1 (not_lt.mpr h)
    · rfl
  · intro st g h
    unfold blasterCollide
    split
    · rw [if_neg]
      intro hcond
      exact absurd hcond.2.1 (not_lt.mpr h)
    · rfl
  · intro st g h1 h2 h3 h4
    unfold blasterCollide
    rw [if_pos h1, if_pos ⟨h2, h3, h4⟩]

/-- Witness for the amended C4 at concrete inputs: the lifetime-39 blaster
whose ray crosses the scenario soul center applies the beam hit, and the
lifetime-41 blaster applies none. -/
theorem blaster_beam_hit_amended_witness :
    blasterCollide firingBlaster beamEdgeState = hurt 0.9 6 beamEdgeState ∧
    blasterCollide beamEdgeBlaster beamEdgeState = beamEdgeState ∧
    blasterCollide { firingBlaster with x := 2000 } beamEdgeState = beamEdgeState :=
  ⟨blaster_beam_hit_amended.2.2.2.2 beamEdgeState firingBlaster
      (by norm_num [firingBlaster])
      (by norm_num [beamProj, beamEdgeState, firingBlaster, initialState])
      (by norm_num [beamProj, beamEdgeState, firingBlaster, initialState])
      (by norm_num [beamPerp, beamEdgeState, firingBlaster, initialState]),
    blaster_beam_hit_amended.1 beamEdgeState beamEdgeBlaster
      (by norm_num [beamEdgeBlaster]),
    blaster_beam_hit_amended.2.2.1 beamEdgeState { firingBlaster with x := 2000 }
      (by norm_num [beamProj, beamEdgeState, firingBlaster, initialState])⟩

/-- C4 counterexample: starting one tick before the boundary, the update
leaves the blaster at remaining lifetime exactly 40 at the damage check,
the soul center lies on its ray (projection 200 ∈ (0, 800), perpendicular
distance 0 < 22), and yet hp and corruption are untouched — so "Firing"
does not include lifetime equal to 40. -/
theorem blaster_life_forty_no_damage_cex :
    (update keys0 16 beamEdgeState).blasters = [{ beamEdgeBlaster with life := 40 }] ∧
    beamProj (update keys0 16 beamEdgeState) { beamEdgeBlaster with life := 40 } = 200 ∧
    beamPerp (update keys0 16 beamEdgeState) { beamEdgeBlaster with life := 40 } = 0 ∧
    (update keys0 16 beamEdgeState).hp = beamEdgeState.hp ∧
    (update keys0 16 beamEdgeState).kr = beamEdgeState.kr := by
  refine ⟨?_, ?_, ?_, ?_, ?_⟩ <;>
    norm_num [update, tick, stallFinisherCheck, tryAllowStallEscape, applyKR,
      blasterCollisions, blasterCollide, beamProj, beamPerp, boneCollisions,
      boneCollide, rectsOverlap, hurt, cullBlasters, advanceBlasters, cullBones,
      advanceBones, clampToStage, physics, physicsRed, physicsBlue, blueInput,
      blueIntegrate, signQ, leftHeld, rightHeld, upHeld, downHeld, menuTiming,
      keys0, beamEdgeState, beamEdgeBlaster, initialState]

/-- C5 (amended): with positive corruption a tick drains hp by exactly
`min(kr, 0.08·Δ)` and decays kr to `max(0, kr − 0.02·Δ)`; with corruption 0
nothing changes; the drain is bounded by `0.08·Δ`; and the drain cannot take
hp below 0 when hp is at least the current corruption — but (as the
counterexample shows) it can when hp is smaller than the drain. -/
theorem kr_drain_decay_amended :
    (∀ (d : ℚ) (st : State), 0 < st.kr →
        (applyKR d st).hp = st.hp - min st.kr (0.08 * d) ∧
        (applyKR d st).kr = max 0 (st.kr - 0.02 * d)) ∧
    (∀ (d : ℚ) (st : State), st.kr = 0 → applyKR d st = st) ∧
    (∀ (d : ℚ) (st : State), 0 ≤ d → st.hp - 0.08 * d ≤ (applyKR d st).hp) ∧
    (∀ (d : ℚ) (st : State), st.kr ≤ st.hp → 0 ≤ st.hp →
        0 ≤ (applyKR d st).hp) := by
  refine ⟨?_, ?_, ?_, ?_⟩
  · intro d st h
    unfold applyKR
    rw [if_neg (not_le.mpr h)]
    exact ⟨rfl, rfl⟩
  · intro d st h
    unfold applyKR
    rw [if_pos (le_of_eq h)]
  · intro d st hd
    unfold applyKR
    have h8 : 0 ≤ 0.08 * d := by positivity
    split
    · linarith
    · dsimp only
      have := min_le_right st.kr (0.08 * d)
      linarith
  · intro d st hkr hhp
    unfold applyKR
    split
    · exact hhp
    · dsimp only
      have := min_le_left st.kr (0.08 * d)
      linarith

/-- Witness for the amended C5 at concrete inputs: the exact drain/decay at
the capped-corruption state, and nonnegativity from the initial state. -/
theorem kr_drain_decay_amended_witness :
    (applyKR 32 drainDeathState).hp =
      drainDeathState.hp - min drainDeathState.kr (0.08 * 32) ∧
    0 ≤ (applyKR 32 initialState).hp :=
  ⟨(kr_drain_decay_amended.1 32 drainDeathState
      (by norm_num [drainDeathState, initialState])).1,
    kr_drain_decay_amended.2.2.2 32 initialState
      (by norm_num [initialState]) (by norm_num [initialState])⟩

/-- C5 counterexample: at hp 1 and corruption 60 a 32 ms tick drains
min(60, 2.56) = 2.56 > 1, driving hp below 0 by corruption drain alone —
refuting "this drain never drives hp below 0". -/
theorem kr_drain_below_zero_cex :
    0 < drainDeathState.hp ∧ 0 ≤ drainDeathState.kr ∧
    drainDeathState.kr ≤ 60 ∧ (applyKR 32 drainDeathState).hp < 0 := by
  norm_num [applyKR, drainDeathState, initialState]

/-- C6 (amended): in the Stall phase with the menu open, FIGHT ends the
encounter in a win exactly when nap mode is active, the idle timer exceeds
8000 ms, and the encounter is not already finished; FIGHT below the
threshold does not finish the encounter but advances the phase counter; and
every other action is not ignored: it closes the menu, increments the phase
index, rebuilds the bare stall cage (discarding any guard-drop bone), resets
the dialogue to the stall line, and for ITEM heals 18 clamped to hpMax. -/
theorem stall_menu_actions_amended :
    (∀ st : State, st.inMenu = true → st.specialStall = true →
        st.napMode = true → st.stallTimer > 8000 → st.finished = false →
        onMenuAction MenuAction.fight st =
          { st with inMenu := false,
                    dialogue := "you swing while he sleeps. it\x27s over.",
                    finished := true, running := false }) ∧
    (∀ st : State, st.inMenu = true → st.specialStall = true →
        st.finished = false → ¬(st.napMode = true ∧ st.stallTimer > 8000) →
        (onMenuAction MenuAction.fight st).finished = false ∧
        (onMenuAction MenuAction.fight st).phaseIndex = st.phaseIndex + 1) ∧
    (∀ (st : State) (a : MenuAction), st.inMenu = true →
        st.specialStall = true → a ≠ MenuAction.fight →
        (onMenuAction a st).inMenu = false ∧
        (onMenuAction a st).phaseIndex = st.phaseIndex + 1 ∧
        (onMenuAction a st).bones = stallCage ∧
        (onMenuAction a st).dialogue = "my special attack." ∧
        (onMenuAction a st).kr = st.kr ∧
        (onMenuAction a st).hp =
          (if a = MenuAction.item then min st.hpMax (st.hp + 18) else st.hp)) := by
  refine ⟨?_, ?_, ?_⟩
  · intro st h1 h2 h3 h4 h5
    unfold onMenuAction
    rw [if_neg (by simp [h1]), if_pos ⟨h2, h3, h4, rfl, h5⟩]
  · intro st h1 h2 h3 h4
    unfold onMenuAction
    rw [if_neg (by simp [h1]),
      if_neg (fun hc => h4 ⟨hc.2.1, hc.2.2.1⟩)]
    constructor
    · rw [nextAttack_finished]; exact h3
    · rw [nextAttack_phase]
  · intro st a h1 h2 h3
    unfold onMenuAction
    rw [if_neg (by simp [h1]),
      if_neg (fun hc => h3 hc.2.2.2.1)]
    cases a
    · exact absurd rfl h3
    · refine ⟨?_, ?_, ?_, ?_, ?_, ?_⟩ <;>
        simp [nextAttack, runPattern, specialAttackStallSetup, h2]
    · refine ⟨?_, ?_, ?_, ?_, ?_, ?_⟩ <;>
        simp [nextAttack, runPattern, specialAttackStallSetup, h2]
    · refine ⟨?_, ?_, ?_, ?_, ?_, ?_⟩ <;>
        simp [nextAttack, runPattern, specialAttackStallSetup, h2]

/-- Witness for the amended C6: the concrete stall-menu state past the
threshold wins on FIGHT, and ACT there rebuilds the cage. -/
theorem stall_menu_actions_amended_witness :
    onMenuAction MenuAction.fight stallMenuState =
      { stallMenuState with inMenu := false,
                            dialogue := "you swing while he sleeps. it\x27s over.",
                            finished := true, running := false } ∧
    (onMenuAction MenuAction.act stallMenuState).bones = stallCage :=
  ⟨stall_menu_actions_amended.1 stallMenuState rfl rfl rfl
      (by norm_num [stallMenuState, initialState]) rfl,
    (stall_menu_actions_amended.2.2 stallMenuState MenuAction.act rfl rfl
      (by decide)).2.2.1⟩

/-- C6 counterexample: in the stall with the menu open (idle timer 9000 ms,
phase 9, guard-drop bone present, mid-pattern clock 500 ms), the ACT action
is not ignored: it closes the menu, advances the phase index to 10, throws
away the guard-drop blue bone while rebuilding the cage, and resets the
subphase clock. -/
theorem stall_menu_act_not_ignored_cex :
    stallMenuState.phaseIndex = 9 ∧
    blueCount stallMenuState.bones = 1 ∧
    stallMenuState.subphaseTime = 500 ∧
    (onMenuAction MenuAction.act stallMenuState).phaseIndex = 10 ∧
    (onMenuAction MenuAction.act stallMenuState).inMenu = false ∧
    blueCount (onMenuAction MenuAction.act stallMenuState).bones = 0 ∧
    (onMenuAction MenuAction.act stallMenuState).subphaseTime = 0 := by
  refine ⟨rfl, by decide, by norm_num [stallMenuState, initialState], ?_, ?_, ?_, ?_⟩ <;>
    norm_num [onMenuAction, nextAttack, runPattern, specialAttackStallSetup,
      stallMenuState, initialState, stallCage, cageTopBlue, blueCount] <;>
    decide

set_option maxHeartbeats 1600000 in
/-- C7: the guard-drop threshold is not fire-once: every tick past 6000 ms
of stall idling spawns one more Guarded (blue) cage-top bone — two idle
ticks past the threshold leave two identical blue bones, where the spec
requires the conversion to fire at most once per stall. -/
theorem stall_guard_drop_not_idempotent :
    blueCount stallIdleState.bones = 0 ∧
    (update keys0 100 stallIdleState).stallTimer = 6600 ∧
    blueCount (update keys0 100 stallIdleState).bones = 1 ∧
    (update keys0 100 (update keys0 100 stallIdleState)).stallTimer = 6700 ∧
    blueCount (update keys0 100 (update keys0 100 stallIdleState)).bones = 2 := by
  refine ⟨by decide, ?_, ?_, ?_, ?_⟩
  · norm_num [update, tick, stallFinisherCheck, tryAllowStallEscape, applyKR,
      blasterCollisions, blasterCollide, beamProj, beamPerp, boneCollisions,
      boneCollide, rectsOverlap, hurt, cullBlasters, advanceBlasters, cullBones,
      advanceBones, clampToStage, physics, physicsRed, physicsBlue, blueInput,
      blueIntegrate, signQ, leftHeld, rightHeld, upHeld, downHeld, menuTiming,
      keys0, stallIdleState, initialState, stallCage, cageTopBlue]
  · norm_num [update, tick, stallFinisherCheck, tryAllowStallEscape, applyKR,
      blasterCollisions, blasterCollide, beamProj, beamPerp, boneCollisions,
      boneCollide, rectsOverlap, hurt, cullBlasters, advanceBlasters, cullBones,
      advanceBones, clampToStage, physics, physicsRed, physicsBlue, blueInput,
      blueIntegrate, signQ, leftHeld, rightHeld, upHeld, downHeld, menuTiming,
      keys0, stallIdleState, initialState, stallCage, cageTopBlue, blueCount,
      List.filter_cons, List.filter_nil, decide_eq_true_eq]
    decide
  · norm_num [update, tick, stallFinisherCheck, tryAllowStallEscape, applyKR,
      blasterCollisions, blasterCollide, beamProj, beamPerp, boneCollisions,
      boneCollide, rectsOverlap, hurt, cullBlasters, advanceBlasters, cullBones,
      advanceBones, clampToStage, physics, physicsRed, physicsBlue, blueInput,
      blueIntegrate, signQ, leftHeld, rightHeld, upHeld, downHeld, menuTiming,
      keys0, stallIdleState, initialState, stallCage, cageTopBlue]
  · norm_num [update, tick, stallFinisherCheck, tryAllowStallEscape, applyKR,
      blasterCollisions, blasterCollide, beamProj, beamPerp, boneCollisions,
      boneCollide, rectsOverlap, hurt, cullBlasters, advanceBlasters, cullBones,
      advanceBones, clampToStage, physics, physicsRed, physicsBlue, blueInput,
      blueIntegrate, signQ, leftHeld, rightHeld, upHeld, downHeld, menuTiming,
      keys0, stallIdleState, initialState, stallCage, cageTopBlue, blueCount,
      List.filter_cons, List.filter_nil, decide_eq_true_eq]
    decide

/-- C8 (amended): in Platforming (blue-soul) mode, `movedThisTick` after the
physics step is true exactly when left or right is held, or the jump key is
held while the soul is grounded — a held jump key while airborne does not
count as movement (and the down key is never read in this mode). -/
theorem platforming_moved_iff_amended :
    ∀ (k : Keys) (st : State), st.soulColor = SoulColor.blue →
      (physics k st).moveThisFrame =
        (leftHeld k || rightHeld k || (upHeld k && st.onGround)) := by
  intro k st h
  unfold physics physicsBlue
  dsimp only
  rw [h]
  rw [blueIntegrate_move, blueInput_move k _ rfl]

/-- Witness for the amended C8 at a concrete state: up held while airborne
gives no movement flag. -/
theorem platforming_moved_iff_amended_witness :
    (physics keysUpOnly initialState).moveThisFrame =
      (leftHeld keysUpOnly || rightHeld keysUpOnly ||
        (upHeld keysUpOnly && initialState.onGround)) :=
  platforming_moved_iff_amended keysUpOnly initialState rfl

/-- C8 counterexample: the up arrow is a movement key and is held, the soul
is blue and airborne, and after a full tick `movedThisTick` is false —
refuting "true iff any movement key was held, including the jump key
whether or not the soul is grounded". -/
theorem airborne_jump_key_not_moved_cex :
    upHeld keysUpOnly = true ∧ initialState.soulColor = SoulColor.blue ∧
    initialState.onGround = false ∧
    (update keysUpOnly 16 initialState).moveThisFrame = false := by
  refine ⟨rfl, rfl, rfl, ?_⟩
  norm_num [update, tick, stallFinisherCheck, tryAllowStallEscape, applyKR,
    blasterCollisions, blasterCollide, beamProj, beamPerp, boneCollisions,
    boneCollide, rectsOverlap, hurt, cullBlasters, advanceBlasters, cullBones,
    advanceBones, clampToStage, physics, physicsRed, physicsBlue, blueInput,
    blueIntegrate, signQ, leftHeld, rightHeld, upHeld, downHeld, menuTiming,
    keys0, keysUpOnly, initialState]

/-- C9 (amended): `update` with Δ ≤ 0 never throws (it is a total function)
but it is not a no-op: while the game runs it still advances the frame
counter, and outside the intro it still runs the whole tick — in particular
every blaster lifetime is decremented and expired blasters are culled. -/
theorem update_nonpositive_delta_ticks :
    ∀ (k : Keys) (d : ℚ) (st : State), d ≤ 0 → st.running = true →
      (update k d st).frame = st.frame + 1 ∧
      (st.introActive = false →
        (update k d st).blasters =
          (st.blasters.map fun g => { g with life := g.life - 1 }).filter
            fun g => decide (¬(g.life ≤ 0))) := by
  intro k d st hd hr
  refine ⟨update_frame_of_running hr, ?_⟩
  intro hi
  unfold update
  rw [if_neg (by simp [hr])]
  dsimp only
  rw [if_neg (by simp [hi])]
  exact tick_blasters k d _

/-- Witness for the amended C9: a concrete Δ = 0 call still decrements the
fresh blaster and advances the frame. -/
theorem update_nonpositive_delta_ticks_witness :
    (update keys0 0 zeroDeltaState).frame = zeroDeltaState.frame + 1 ∧
    (update keys0 0 zeroDeltaState).blasters =
      (zeroDeltaState.blasters.map fun g => { g with life := g.life - 1 }).filter
        fun g => decide (¬(g.life ≤ 0)) :=
  ⟨(update_nonpositive_delta_ticks keys0 0 zeroDeltaState (by norm_num) rfl).1,
    (update_nonpositive_delta_ticks keys0 0 zeroDeltaState (by norm_num) rfl).2 rfl⟩

/-- C9 counterexample: with Δ = 0 the update is not a no-op — the frame
counter advances and the blaster collection changes (its lifetime drops
from 70 to 69). -/
theorem update_zero_delta_changes_state_cex :
    (update keys0 0 zeroDeltaState).frame = zeroDeltaState.frame + 1 ∧
    (update keys0 0 zeroDeltaState).blasters ≠ zeroDeltaState.blasters := by
  constructor <;>
    norm_num [update, tick, stallFinisherCheck, tryAllowStallEscape, applyKR,
      blasterCollisions, blasterCollide, beamProj, beamPerp, boneCollisions,
      boneCollide, rectsOverlap, hurt, cullBlasters, advanceBlasters, cullBones,
      advanceBones, clampToStage, physics, physicsRed, physicsBlue, blueInput,
      blueIntegrate, signQ, leftHeld, rightHeld, upHeld, downHeld, menuTiming,
      keys0, zeroDeltaState, initialState]
